import Mathlib

/-!
Verification of the metrics and scoring model of the sacred-books
dashboard (src/Dashboard.py).  The dashboard holds a static dataset of
three book records and computes three derived quantities for display:
a weighted composite score, a structural complexity index, and a
per-metric cross-book normalization for a radar chart.  We embed the
dataset and the three computations over the rationals (the Python
floats here are all short decimal literals, so rational arithmetic
reproduces the intended exact values) and prove the specified
properties.
-/

namespace Dashboard

/-- The structural_analysis sub-record of a book
(src/Dashboard.py, load_advanced_data). -/
structure StructuralAnalysis where
  avg_verse_length : ℚ
  vocabulary_richness : ℚ
  repetition_rate : ℚ
  rhythmic_patterns : ℚ
  thematic_cohesion : ℚ
  deriving DecidableEq

/-- The linguistic_features sub-record of a book
(src/Dashboard.py, load_advanced_data). -/
structure LinguisticFeatures where
  unique_words : ℚ
  root_words : ℚ
  grammatical_complexity : ℚ
  semantic_density : ℚ
  oral_preservation : ℚ
  deriving DecidableEq

/-- The historical_impact sub-record of a book
(src/Dashboard.py, load_advanced_data). -/
structure HistoricalImpact where
  manuscripts_earliest : ℚ
  translations_timeline : ℚ
  academic_studies : ℚ
  cultural_references : ℚ
  legal_influence : ℚ
  deriving DecidableEq

/-- One full book record: the three sub-dictionaries kept for each book
in load_advanced_data. -/
structure BookRecord where
  structural_analysis : StructuralAnalysis
  linguistic_features : LinguisticFeatures
  historical_impact : HistoricalImpact
  deriving DecidableEq

/-- The three fixed book keys of the dataset. -/
inductive Book where
  | Coran
  | Torah
  | Bible
  deriving DecidableEq

/-- The static dataset: the literal values of load_advanced_data
(src/Dashboard.py lines 70 to 143). -/
def load_advanced_data : Book → BookRecord
  | Book.Coran =>
    { structural_analysis :=
        { avg_verse_length := 25.6
          vocabulary_richness := 0.85
          repetition_rate := 12.3
          rhythmic_patterns := 94
          thematic_cohesion := 9.2 }
      linguistic_features :=
        { unique_words := 14870
          root_words := 1726
          grammatical_complexity := 8.7
          semantic_density := 9.1
          oral_preservation := 99.9 }
      historical_impact :=
        { manuscripts_earliest := 642
          translations_timeline := 112
          academic_studies := 125000
          cultural_references := 890000
          legal_influence := 9.5 } }
  | Book.Torah =>
    { structural_analysis :=
        { avg_verse_length := 18.3
          vocabulary_richness := 0.78
          repetition_rate := 8.7
          rhythmic_patterns := 45
          thematic_cohesion := 8.8 }
      linguistic_features :=
        { unique_words := 8920
          root_words := 1850
          grammatical_complexity := 7.9
          semantic_density := 8.4
          oral_preservation := 95.2 }
      historical_impact :=
        { manuscripts_earliest := -250
          translations_timeline := 25
          academic_studies := 89000
          cultural_references := 450000
          legal_influence := 9.8 } }
  | Book.Bible =>
    { structural_analysis :=
        { avg_verse_length := 22.1
          vocabulary_richness := 0.92
          repetition_rate := 15.8
          rhythmic_patterns := 67
          thematic_cohesion := 8.5 }
      linguistic_features :=
        { unique_words := 12850
          root_words := 4200
          grammatical_complexity := 8.2
          semantic_density := 8.8
          oral_preservation := 97.8 }
      historical_impact :=
        { manuscripts_earliest := 125
          translations_timeline := 1382
          academic_studies := 450000
          cultural_references := 2500000
          legal_influence := 9.2 } }

/-- The composite impact score computed in create_advanced_metrics_dashboard
(src/Dashboard.py lines 638 to 643): weighted sum of thematic cohesion,
semantic density, legal influence and oral preservation. -/
def composite_score (b : BookRecord) : ℚ :=
  b.structural_analysis.thematic_cohesion * 0.2 +
  b.linguistic_features.semantic_density * 0.25 +
  b.historical_impact.legal_influence * 0.3 +
  (b.linguistic_features.oral_preservation / 10) * 0.25

/-- The structural complexity index computed in create_structural_analysis
(src/Dashboard.py lines 272 to 277). -/
def complexity_score (s : StructuralAnalysis) : ℚ :=
  (s.vocabulary_richness * 30 +
   s.thematic_cohesion * 25 +
   (100 - s.repetition_rate) * 20 +
   s.rhythmic_patterns * 0.25) / 100

/-- The five structural metric keys used by the radar-chart normalization
in create_structural_analysis (src/Dashboard.py line 239). -/
inductive StructMetric where
  | avg_verse_length
  | vocabulary_richness
  | repetition_rate
  | rhythmic_patterns
  | thematic_cohesion
  deriving DecidableEq

/-- Lookup of one structural metric of one book in a dataset, mirroring
the dictionary access books_data[book][structural_analysis][metric]. -/
def structValueIn (d : Book → BookRecord) (b : Book) (m : StructMetric) : ℚ :=
  match m with
  | StructMetric.avg_verse_length => (d b).structural_analysis.avg_verse_length
  | StructMetric.vocabulary_richness => (d b).structural_analysis.vocabulary_richness
  | StructMetric.repetition_rate => (d b).structural_analysis.repetition_rate
  | StructMetric.rhythmic_patterns => (d b).structural_analysis.rhythmic_patterns
  | StructMetric.thematic_cohesion => (d b).structural_analysis.thematic_cohesion

/-- Metric lookup on the static dataset. -/
def structValue (b : Book) (m : StructMetric) : ℚ :=
  structValueIn load_advanced_data b m

/-- The per-metric maximum over the three books of a dataset, mirroring
the Python expression max over the list of the three books
(src/Dashboard.py line 247). -/
def max_valsIn (d : Book → BookRecord) (m : StructMetric) : ℚ :=
  max (structValueIn d Book.Coran m)
    (max (structValueIn d Book.Torah m) (structValueIn d Book.Bible m))

/-- The per-metric maximum on the static dataset. -/
def max_vals (m : StructMetric) : ℚ :=
  max_valsIn load_advanced_data m

/-- The cross-book normalization v divided by max_v times 100 computed
for the radar chart (src/Dashboard.py line 248), over a dataset. -/
def normalizedIn (d : Book → BookRecord) (b : Book) (m : StructMetric) : ℚ :=
  structValueIn d b m / max_valsIn d m * 100

/-- The cross-book normalization on the static dataset. -/
def normalized (b : Book) (m : StructMetric) : ℚ :=
  normalizedIn load_advanced_data b m

/-- The fifteen documented field names of a book record: five
structural, five linguistic, five historical. -/
inductive FieldName where
  | avg_verse_length
  | vocabulary_richness
  | repetition_rate
  | rhythmic_patterns
  | thematic_cohesion
  | unique_words
  | root_words
  | grammatical_complexity
  | semantic_density
  | oral_preservation
  | manuscripts_earliest
  | translations_timeline
  | academic_studies
  | cultural_references
  | legal_influence
  deriving DecidableEq

/-- Dictionary view of the static dataset: looking up a field name of a
book, as the Python nested dictionaries do; the result is an optional
value, so that a missing key would show up as none. -/
def rawField (b : Book) (f : FieldName) : Option ℚ :=
  match f with
  | FieldName.avg_verse_length => some (load_advanced_data b).structural_analysis.avg_verse_length
  | FieldName.vocabulary_richness => some (load_advanced_data b).structural_analysis.vocabulary_richness
  | FieldName.repetition_rate => some (load_advanced_data b).structural_analysis.repetition_rate
  | FieldName.rhythmic_patterns => some (load_advanced_data b).structural_analysis.rhythmic_patterns
  | FieldName.thematic_cohesion => some (load_advanced_data b).structural_analysis.thematic_cohesion
  | FieldName.unique_words => some (load_advanced_data b).linguistic_features.unique_words
  | FieldName.root_words => some (load_advanced_data b).linguistic_features.root_words
  | FieldName.grammatical_complexity => some (load_advanced_data b).linguistic_features.grammatical_complexity
  | FieldName.semantic_density => some (load_advanced_data b).linguistic_features.semantic_density
  | FieldName.oral_preservation => some (load_advanced_data b).linguistic_features.oral_preservation
  | FieldName.manuscripts_earliest => some (load_advanced_data b).historical_impact.manuscripts_earliest
  | FieldName.translations_timeline => some (load_advanced_data b).historical_impact.translations_timeline
  | FieldName.academic_studies => some (load_advanced_data b).historical_impact.academic_studies
  | FieldName.cultural_references => some (load_advanced_data b).historical_impact.cultural_references
  | FieldName.legal_influence => some (load_advanced_data b).historical_impact.legal_influence

/-- The in-memory state of the dashboard object: the books_data mapping
set once by the constructor. -/
structure DashState where
  books_data : Book → BookRecord

/-- The state built at process start: the constructor stores the result
of load_advanced_data (src/Dashboard.py line 65). -/
def initState : DashState :=
  { books_data := load_advanced_data }

/-- The composite-score entry point as a state transformer: the method
reads books_data and computes the score, writing nothing back
(src/Dashboard.py lines 638 to 643). -/
def run_composite (s : DashState) (b : Book) : ℚ × DashState :=
  (composite_score (s.books_data b), s)

/-- The complexity-index entry point as a state transformer: the method
reads books_data and computes the index, writing nothing back
(src/Dashboard.py lines 272 to 277). -/
def run_complexity (s : DashState) (b : Book) : ℚ × DashState :=
  (complexity_score (s.books_data b).structural_analysis, s)

/-- The radar normalization entry point as a state transformer: the
method reads books_data and computes the normalized value, writing
nothing back (src/Dashboard.py lines 244 to 248). -/
def run_normalized (s : DashState) (b : Book) (m : StructMetric) : ℚ × DashState :=
  (normalizedIn s.books_data b m, s)

end Dashboard

namespace Dashboard

/-- C1: for every book record, the composite score equals
thematic_cohesion times 0.20 plus semantic_density times 0.25 plus
legal_influence times 0.30 plus oral_preservation over 10 times 0.25,
exactly as the specification states it, and computing it has no side
effect on the dashboard state. -/
theorem composite_matches_spec :
    (∀ b : BookRecord,
      composite_score b =
        b.structural_analysis.thematic_cohesion * 0.20 +
        b.linguistic_features.semantic_density * 0.25 +
        b.historical_impact.legal_influence * 0.30 +
        (b.linguistic_features.oral_preservation / 10) * 0.25) ∧
    (∀ (s : DashState) (b : Book), (run_composite s b).2 = s) := by
  refine ⟨fun b => ?_, fun s b => rfl⟩
  unfold composite_score
  norm_num

/-- C3: for each of the three fixed books the composite score equals the
literal value of the documented formula on that book's static data; in
particular the Coran composite score is 9.4625. -/
theorem composite_fixed_values :
    composite_score (load_advanced_data Book.Coran) = 9.4625 ∧
    composite_score (load_advanced_data Book.Torah) = 9.18 ∧
    composite_score (load_advanced_data Book.Bible) = 9.105 := by
  refine ⟨?_, ?_, ?_⟩ <;> norm_num [composite_score, load_advanced_data]

/-- C2: for every structural record, the structural complexity index
equals vocabulary_richness times 30 plus thematic_cohesion times 25 plus
100 minus repetition_rate times 20 plus rhythmic_patterns times 0.25,
all divided by 100, exactly as the specification states it. -/
theorem complexity_matches_spec (s : StructuralAnalysis) :
    complexity_score s =
      (s.vocabulary_richness * 30 +
       s.thematic_cohesion * 25 +
       (100 - s.repetition_rate) * 20 +
       s.rhythmic_patterns * 0.25) / 100 := by
  unfold complexity_score
  norm_num

/-- C4: whenever thematic cohesion, semantic density and legal influence
lie in 0 to 10 and oral preservation lies in 0 to 100, the composite
score lies in 0 to 10. -/
theorem composite_score_range (b : BookRecord)
    (h1 : 0 ≤ b.structural_analysis.thematic_cohesion)
    (h2 : b.structural_analysis.thematic_cohesion ≤ 10)
    (h3 : 0 ≤ b.linguistic_features.semantic_density)
    (h4 : b.linguistic_features.semantic_density ≤ 10)
    (h5 : 0 ≤ b.historical_impact.legal_influence)
    (h6 : b.historical_impact.legal_influence ≤ 10)
    (h7 : 0 ≤ b.linguistic_features.oral_preservation)
    (h8 : b.linguistic_features.oral_preservation ≤ 100) :
    0 ≤ composite_score b ∧ composite_score b ≤ 10 := by
  unfold composite_score
  constructor <;> nlinarith

/-- Witness for C4: the Coran record satisfies the range hypotheses and
its composite score lies in 0 to 10. -/
theorem composite_score_range_witness :
    0 ≤ composite_score (load_advanced_data Book.Coran) ∧
    composite_score (load_advanced_data Book.Coran) ≤ 10 :=
  composite_score_range (load_advanced_data Book.Coran)
    (by norm_num [load_advanced_data]) (by norm_num [load_advanced_data])
    (by norm_num [load_advanced_data]) (by norm_num [load_advanced_data])
    (by norm_num [load_advanced_data]) (by norm_num [load_advanced_data])
    (by norm_num [load_advanced_data]) (by norm_num [load_advanced_data])

/-- C5: for every book and every structural metric, the cross-book
normalization equals that book's value divided by the maximum of the
three books' values for that metric, times 100, and on the static
dataset the result lies in the range 0 to 100. -/
theorem normalized_formula_and_range (b : Book) (m : StructMetric) :
    normalized b m = structValue b m / max_vals m * 100 ∧
    0 ≤ normalized b m ∧ normalized b m ≤ 100 := by
  refine ⟨rfl, ?_, ?_⟩ <;>
    cases b <;> cases m <;>
      norm_num [normalized, normalizedIn, structValue, structValueIn, max_vals,
        max_valsIn, load_advanced_data]

/-- C10: on the static dataset, whose structural fields are all inside
their documented ranges, the structural complexity index exceeds the
0 to 10 display scale for every book: it equals 20.33 for the Coran,
20.8065 for the Torah and 19.4085 for the Bible. -/
theorem complexity_exceeds_display_scale :
    complexity_score (load_advanced_data Book.Coran).structural_analysis = 20.33 ∧
    complexity_score (load_advanced_data Book.Torah).structural_analysis = 20.8065 ∧
    complexity_score (load_advanced_data Book.Bible).structural_analysis = 19.4085 ∧
    (∀ b : Book,
      0 ≤ (load_advanced_data b).structural_analysis.vocabulary_richness ∧
      (load_advanced_data b).structural_analysis.vocabulary_richness ≤ 1 ∧
      0 ≤ (load_advanced_data b).structural_analysis.repetition_rate ∧
      (load_advanced_data b).structural_analysis.repetition_rate ≤ 100 ∧
      0 ≤ (load_advanced_data b).structural_analysis.thematic_cohesion ∧
      (load_advanced_data b).structural_analysis.thematic_cohesion ≤ 10 ∧
      10 < complexity_score (load_advanced_data b).structural_analysis) := by
  refine ⟨?_, ?_, ?_, ?_⟩
  · norm_num [complexity_score, load_advanced_data]
  · norm_num [complexity_score, load_advanced_data]
  · norm_num [complexity_score, load_advanced_data]
  · intro b
    cases b <;> norm_num [complexity_score, load_advanced_data]

/-- C6: for every structural metric of the static dataset on which some
book has a positive value, exactly one of the three normalized outputs
equals 100, namely the one of the book holding the maximum. -/
theorem normalized_unique_max (m : StructMetric)
    (h : ∃ b : Book, 0 < structValue b m) :
    ∃! b : Book, normalized b m = 100 := by
  clear h
  cases m
  case avg_verse_length =>
    refine ⟨Book.Coran, by norm_num [normalized, normalizedIn, structValueIn, max_valsIn,
      load_advanced_data], ?_⟩
    intro b hb
    cases b
    · rfl
    · exfalso
      norm_num [normalized, normalizedIn, structValueIn, max_valsIn, load_advanced_data] at hb
    · exfalso
      norm_num [normalized, normalizedIn, structValueIn, max_valsIn, load_advanced_data] at hb
  case vocabulary_richness =>
    refine ⟨Book.Bible, by norm_num [normalized, normalizedIn, structValueIn, max_valsIn,
      load_advanced_data], ?_⟩
    intro b hb
    cases b
    · exfalso
      norm_num [normalized, normalizedIn, structValueIn, max_valsIn, load_advanced_data] at hb
    · exfalso
      norm_num [normalized, normalizedIn, structValueIn, max_valsIn, load_advanced_data] at hb
    · rfl
  case repetition_rate =>
    refine ⟨Book.Bible, by norm_num [normalized, normalizedIn, structValueIn, max_valsIn,
      load_advanced_data], ?_⟩
    intro b hb
    cases b
    · exfalso
      norm_num [normalized, normalizedIn, structValueIn, max_valsIn, load_advanced_data] at hb
    · exfalso
      norm_num [normalized, normalizedIn, structValueIn, max_valsIn, load_advanced_data] at hb
    · rfl
  case rhythmic_patterns =>
    refine ⟨Book.Coran, by norm_num [normalized, normalizedIn, structValueIn, max_valsIn,
      load_advanced_data], ?_⟩
    intro b hb
    cases b
    · rfl
    · exfalso
      norm_num [normalized, normalizedIn, structValueIn, max_valsIn, load_advanced_data] at hb
    · exfalso
      norm_num [normalized, normalizedIn, structValueIn, max_valsIn, load_advanced_data] at hb
  case thematic_cohesion =>
    refine ⟨Book.Coran, by norm_num [normalized, normalizedIn, structValueIn, max_valsIn,
      load_advanced_data], ?_⟩
    intro b hb
    cases b
    · rfl
    · exfalso
      norm_num [normalized, normalizedIn, structValueIn, max_valsIn, load_advanced_data] at hb
    · exfalso
      norm_num [normalized, normalizedIn, structValueIn, max_valsIn, load_advanced_data] at hb

/-- Witness for C6: the thematic cohesion metric has a positive value for
the Coran, and exactly one normalized output equals 100 on it. -/
theorem normalized_unique_max_witness :
    (0 : ℚ) < structValue Book.Coran StructMetric.thematic_cohesion ∧
    ∃! b : Book, normalized b StructMetric.thematic_cohesion = 100 :=
  ⟨by norm_num [structValue, structValueIn, load_advanced_data],
   normalized_unique_max StructMetric.thematic_cohesion
     ⟨Book.Coran, by norm_num [structValue, structValueIn, load_advanced_data]⟩⟩

/-- C7: the structural complexity index is deterministic and idempotent:
two evaluations on equal, unchanged structural records give identical
results. -/
theorem complexity_deterministic (s1 s2 : StructuralAnalysis)
    (h : s1 = s2) :
    complexity_score s1 = complexity_score s2 := by
  rw [h]

/-- Witness for C7: two evaluations on the unchanged Coran structural
record give the same index. -/
theorem complexity_deterministic_witness :
    complexity_score (load_advanced_data Book.Coran).structural_analysis =
      complexity_score (load_advanced_data Book.Coran).structural_analysis :=
  complexity_deterministic
    (load_advanced_data Book.Coran).structural_analysis
    (load_advanced_data Book.Coran).structural_analysis rfl

/-- C8: replacing the record of one book in a dataset, in particular
changing any of its input fields, leaves the composite score and the
complexity score of every other book unchanged. -/
theorem no_cross_contamination (d : Book → BookRecord) (a b : Book)
    (r : BookRecord) (hab : a ≠ b) :
    composite_score (Function.update d a r b) = composite_score (d b) ∧
    complexity_score (Function.update d a r b).structural_analysis =
      complexity_score (d b).structural_analysis := by
  rw [Function.update_noteq (Ne.symm hab)]
  exact ⟨rfl, rfl⟩

/-- Witness for C8: overwriting the Coran record with the Bible record
leaves the scores of the Torah unchanged. -/
theorem no_cross_contamination_witness :
    composite_score
        (Function.update load_advanced_data Book.Coran
          (load_advanced_data Book.Bible) Book.Torah) =
      composite_score (load_advanced_data Book.Torah) ∧
    complexity_score
        (Function.update load_advanced_data Book.Coran
          (load_advanced_data Book.Bible) Book.Torah).structural_analysis =
      complexity_score (load_advanced_data Book.Torah).structural_analysis :=
  no_cross_contamination load_advanced_data Book.Coran Book.Torah
    (load_advanced_data Book.Bible) (by decide)

/-- C9: every one of the three static book records supplies all fifteen
documented fields, the dashboard state is built once at start from
load_advanced_data, and none of the computing entry points modifies the
state. -/
theorem dataset_complete_and_immutable :
    (∀ (b : Book) (f : FieldName), (rawField b f).isSome = true) ∧
    initState.books_data = load_advanced_data ∧
    (∀ (s : DashState) (b : Book), (run_composite s b).2 = s) ∧
    (∀ (s : DashState) (b : Book), (run_complexity s b).2 = s) ∧
    (∀ (s : DashState) (b : Book) (m : StructMetric),
      (run_normalized s b m).2 = s) := by
  refine ⟨?_, rfl, fun s b => rfl, fun s b => rfl, fun s b m => rfl⟩
  intro b f
  cases f <;> rfl

end Dashboard
